import Mathlib

/-!
Verification development for the GoogleMonicaSync contact synchronisation
engine.  The Python sources (helpers/DatabaseHelper.py, helpers/SyncHelper.py,
helpers/GoogleHelper.py, helpers/MonicaHelper.py) are shallowly embedded:
Python dictionaries become association lists, the sqlite sync table becomes a
list of rows, remote calls become effect descriptions, and kwargs / JSON
values become Lean structures with `Option` for nullable fields.
-/

namespace GMSync

/-! ## Python dictionary primitives

Association-list models of the Python `dict` operations the sync engine uses:
`d.get(k)`, `d[k] = v` / `d.update({k: v})` (replace in place, or append when
the key is new), `d.pop(k)` (its effect when the key is present, as at its
call sites), and `v in d.values()`.  Keys are unique in a Python dict, so the
first-occurrence semantics below coincides with dict semantics.
-/

/-- Model of Python dict lookup `d.get(k)` on an association list. -/
def lookupStr : List (String × String) → String → Option String
  | [], _ => none
  | p :: t, k => if p.1 = k then some p.2 else lookupStr t k

/-- Model of Python `d[k] = v` / `d.update({k: v})`: replace the value of an
existing key in place, otherwise append the new pair. -/
def dictUpdate : List (String × String) → String → String → List (String × String)
  | [], k, v => [(k, v)]
  | p :: t, k, v => if p.1 = k then (k, v) :: t else p :: dictUpdate t k v

/-- Model of the effect of Python `d.pop(k)`: drop the key's entry. -/
def dictPop : List (String × String) → String → List (String × String)
  | [], _ => []
  | p :: t, k => if p.1 = k then t else p :: dictPop t k

/-- Model of Python `v in d.values()`. -/
def isDictValue (l : List (String × String)) (v : String) : Bool :=
  l.any (fun p => p.2 = v)

/-! ## DatabaseHelper embedding

`helpers/DatabaseHelper.py`: the sqlite `sync` table becomes a list of rows.
Python string truthiness (`if database_entry.monica_id:`) is the test for a
non-empty string.  The `UNIQUE` constraints of `__initialize_database` make a
conflicting `INSERT` fail without changing the table; each `UPDATE ... WHERE`
statement commits on its own, so a raise in `Database.update` keeps the
updates already executed.
-/

/-- Row of the `sync` table, mirroring `DatabaseEntry.__init__` with its
default arguments (empty ids, the literal string NULL for the rest). -/
structure DatabaseEntry where
  google_id : String := ""
  monica_id : String := ""
  google_full_name : String := "NULL"
  monica_full_name : String := "NULL"
  google_last_changed : String := "NULL"
  monica_last_changed : String := "NULL"
deriving DecidableEq, Repr

/-- Error raised by the store (`DatabaseError` / sqlite `IntegrityError`). -/
inductive DbError where
  | unknownArguments
  | integrityError
deriving DecidableEq, Repr

/-- `INSERT INTO sync ...` under the two `UNIQUE NOT NULL` column constraints
of `Database.__initialize_database`: the statement fails, leaving the table
unchanged, when either id is already present. -/
def insertData (t : List DatabaseEntry) (e : DatabaseEntry) :
    List DatabaseEntry × Option DbError :=
  if t.any (fun r => r.google_id = e.google_id || r.monica_id = e.monica_id) then
    (t, some DbError.integrityError)
  else
    (t ++ [e], none)

/-- `UPDATE sync SET monicaFullName = ? WHERE monicaId = ?`. -/
def updateFullNameByMonicaId (t : List DatabaseEntry) (mid name : String) :
    List DatabaseEntry :=
  t.map (fun r => if r.monica_id = mid then { r with monica_full_name := name } else r)

/-- `UPDATE sync SET googleFullName = ? WHERE googleId = ?`. -/
def updateFullNameByGoogleId (t : List DatabaseEntry) (gid name : String) :
    List DatabaseEntry :=
  t.map (fun r => if r.google_id = gid then { r with google_full_name := name } else r)

/-- `UPDATE sync SET monicaLastChanged = ? WHERE monicaId = ?`. -/
def updateMonicaLastChanged (t : List DatabaseEntry) (mid stamp : String) :
    List DatabaseEntry :=
  t.map (fun r => if r.monica_id = mid then { r with monica_last_changed := stamp } else r)

/-- `UPDATE sync SET googleLastChanged = ? WHERE googleId = ?`. -/
def updateGoogleLastChanged (t : List DatabaseEntry) (gid stamp : String) :
    List DatabaseEntry :=
  t.map (fun r => if r.google_id = gid then { r with google_last_changed := stamp } else r)

/-- Google-side half of `Database.update`: runs only when the Monica branch
did not raise.  Mirrors the `if database_entry.google_id:` block including the
`else` that is attached to the `google_last_changed` test alone. -/
def updateEntryGoogleSide (t : List DatabaseEntry) (e : DatabaseEntry) :
    List DatabaseEntry × Option DbError :=
  if e.google_id ≠ "" then
    let t1 := if e.google_full_name ≠ "" then
        updateFullNameByGoogleId t e.google_id e.google_full_name
      else t
    if e.google_last_changed ≠ "" then
      (updateGoogleLastChanged t1 e.google_id e.google_last_changed, none)
    else
      (t1, some DbError.unknownArguments)
  else (t, none)

/-- Monica-side half of `Database.update`: the `if database_entry.monica_id:`
block.  The `else` raising `DatabaseError` is attached to the
`monica_last_changed` test alone, exactly as in the source. -/
def updateEntryMonicaSide (t : List DatabaseEntry) (e : DatabaseEntry) :
    List DatabaseEntry × Option DbError :=
  if e.monica_id ≠ "" then
    let t1 := if e.monica_full_name ≠ "" then
        updateFullNameByMonicaId t e.monica_id e.monica_full_name
      else t
    if e.monica_last_changed ≠ "" then
      (updateMonicaLastChanged t1 e.monica_id e.monica_last_changed, none)
    else
      (t1, some DbError.unknownArguments)
  else (t, none)

/-- `Database.update`: Monica branch, then Google branch, then the final
check that at least one id was given.  A raise aborts the remaining branches
but keeps the single-statement commits already made. -/
def updateEntry (t : List DatabaseEntry) (e : DatabaseEntry) :
    List DatabaseEntry × Option DbError :=
  let m := updateEntryMonicaSide t e
  if m.2.isSome then m
  else
    let g := updateEntryGoogleSide m.1 e
    if g.2.isSome then g
    else if e.monica_id = "" ∧ e.google_id = "" then (g.1, some DbError.unknownArguments)
    else (g.1, none)

/-- `DELETE FROM sync WHERE monicaId=? AND googleId=?` (`Database.delete`). -/
def deleteRow (t : List DatabaseEntry) (gid mid : String) : List DatabaseEntry :=
  t.filter (fun r => ¬ (r.monica_id = mid ∧ r.google_id = gid))

/-- The store mutations available to the sync flows (initial, full, delta,
sync-back): row insertion, partial update, row deletion, and the
`delete_and_initialize` reset used by initial sync. -/
inductive DbOp where
  | insert (e : DatabaseEntry)
  | update (e : DatabaseEntry)
  | delete (gid mid : String)
  | reset
deriving DecidableEq, Repr

/-- Effect of one store mutation on the `sync` table.  A failed insert and a
raising update leave behind exactly what sqlite committed. -/
def applyOp (t : List DatabaseEntry) : DbOp → List DatabaseEntry
  | DbOp.insert e => (insertData t e).1
  | DbOp.update e => (updateEntry t e).1
  | DbOp.delete gid mid => deleteRow t gid mid
  | DbOp.reset => []

/-- Table reached from the freshly initialised (empty) store by a sequence of
store mutations. -/
def runOps (ops : List DbOp) : List DatabaseEntry :=
  ops.foldl applyOp []

/-- No Google id and no Monica id occurs in two distinct rows. -/
def uniqueIds (t : List DatabaseEntry) : Prop :=
  t.Pairwise (fun a b => a.google_id ≠ b.google_id ∧ a.monica_id ≠ b.monica_id)

instance (t : List DatabaseEntry) : Decidable (uniqueIds t) := by
  unfold uniqueIds; infer_instance

/-! ## SyncHelper in-memory id maps

`Sync.__init__` loads `self.mapping` (googleId to monicaId) and derives
`self.reverse_mapping` by inverting it.  `Sync.__update_mapping` patches both
dictionaries; the deletion path of `Sync.__delete_monica_contact` runs
`self.mapping.pop(google_id)` only.
-/

/-- The pair of in-memory id maps held by the `Sync` object. -/
structure SyncMaps where
  mapping : List (String × String)
  reverse_mapping : List (String × String)
deriving DecidableEq, Repr

/-- `Sync.__update_mapping`: `self.mapping.update({google_id: monica_id})`
and `self.reverse_mapping.update({monica_id: google_id})`. -/
def updateMapping (s : SyncMaps) (google_id monica_id : String) : SyncMaps :=
  { mapping := dictUpdate s.mapping google_id monica_id,
    reverse_mapping := dictUpdate s.reverse_mapping monica_id google_id }

/-- Map mutation performed by `Sync.__delete_monica_contact` after removing
the store row: `self.mapping.pop(google_id)`, with `self.reverse_mapping`
left untouched. -/
def deleteMonicaContactMaps (s : SyncMaps) (google_id : String) : SyncMaps :=
  { s with mapping := dictPop s.mapping google_id }

/-- The reverse map is exactly the inverse of the forward map. -/
def inverseConsistent (s : SyncMaps) : Prop :=
  ∀ g m : String,
    lookupStr s.mapping g = some m ↔ lookupStr s.reverse_mapping m = some g

/-! ## Python string primitives used by the name heuristics -/

/-- Python list/str slicing `l[a:b]` with possibly negative bounds. -/
def pySlice {α : Type} (l : List α) (a b : Int) : List α :=
  let n : Int := l.length
  let lo := if a < 0 then max (n + a) 0 else min a n
  let hi := if b < 0 then max (n + b) 0 else min b n
  if lo < hi then (l.drop lo.toNat).take (hi - lo).toNat else []

/-- Python `s[a:b]` on a string. -/
def pySliceStr (s : String) (a b : Int) : String :=
  String.mk (pySlice s.data a b)

/-- Python `s.strip()` (whitespace on both ends). -/
def pyStrip (s : String) : String :=
  String.mk (((s.data.dropWhile Char.isWhitespace).reverse.dropWhile
    Char.isWhitespace).reverse)

/-! ## GoogleHelper embedding

`helpers/GoogleHelper.py`.  A People-API person becomes `GoogleContact`:
`names` is the head of the `names` list (`none` when the key is missing, the
source defaults each part with `.get(part, "")`), `nickname` is
`nicknames[0].value`, `deleted` is `metadata.deleted`, `updateTime` is
`metadata.sources[0].updateTime`, `birthdays` is the head of the `birthdays`
list and `memberships` carries the contact-group ids.
-/

/-- `names[0]` of a Google contact.  `pfx`/`sfx` stand for the two honorific
name parts of the People API. -/
structure GoogleNames where
  givenName : String := ""
  middleName : String := ""
  familyName : String := ""
  displayName : String := ""
  pfx : String := ""
  sfx : String := ""
deriving DecidableEq, Repr

/-- `birthdays[0].date` of a Google contact. -/
structure GoogleBirthday where
  year : Option Nat := none
  month : Option Nat := none
  day : Option Nat := none
deriving DecidableEq, Repr

/-- A Google contact, restricted to the fields the sync engine reads. -/
structure GoogleContact where
  resourceName : String
  names : Option GoogleNames := none
  nickname : String := ""
  deleted : Bool := false
  updateTime : String := ""
  birthdays : Option GoogleBirthday := none
  memberships : List String := []
deriving DecidableEq, Repr

/-- The 7-tuple returned by `Google.get_contact_names`. -/
structure ContactNames where
  givenName : String
  middleName : String
  familyName : String
  displayName : String
  pfx : String
  sfx : String
  nickname : String
deriving DecidableEq, Repr

/-- `Google.get_contact_names`: every part defaults to the empty string when
missing; the nickname comes from the separate `nicknames` key. -/
def getContactNames (c : GoogleContact) : ContactNames :=
  let names := c.names.getD {}
  { givenName := names.givenName,
    middleName := names.middleName,
    familyName := names.familyName,
    displayName := names.displayName,
    pfx := names.pfx,
    sfx := names.sfx,
    nickname := c.nickname }

/-- The name parts of `get_contact_names` as the tuple Python's `any` sees. -/
def contactNamesList (c : GoogleContact) : List String :=
  let n := getContactNames c
  [n.givenName, n.middleName, n.familyName, n.displayName, n.pfx, n.sfx, n.nickname]

/-- Truthiness test of `any(self.get_contact_names(google_contact))`. -/
def hasAnyName (c : GoogleContact) : Bool :=
  (contactNamesList c).any (fun s => s ≠ "")

/-- Keep-condition of `Google.__filter_unnamed_contacts`: a contact is kept
unless it is unnamed (`not is_any_name or not is_name_key_present`) while not
carrying the deleted flag. -/
def keepNamedOrDeleted (c : GoogleContact) : Bool :=
  !((!hasAnyName c || !c.names.isSome) && !c.deleted)

/-- `Google.__filter_unnamed_contacts`. -/
def filterUnnamedContacts (l : List GoogleContact) : List GoogleContact :=
  l.filter keepNamedOrDeleted

/-- `Google.__filter_contacts_by_label` on the contact-group ids. -/
def googleFilterByLabel (includeLabels excludeLabels : List String)
    (l : List GoogleContact) : List GoogleContact :=
  if includeLabels ≠ [] then
    l.filter (fun c =>
      c.memberships.any (fun lbl => includeLabels.contains lbl) &&
      c.memberships.all (fun lbl => !excludeLabels.contains lbl))
  else if excludeLabels ≠ [] then
    l.filter (fun c => c.memberships.all (fun lbl => !excludeLabels.contains lbl))
  else l

/-- The two assignments closing `Google.__fetch_contacts`: the label-filtered
list is computed first, then `self.contacts` is overwritten with the unnamed
filter applied to the raw list, which is what the connector ends up holding
and returning from `get_contacts`. -/
def fetchContactsStore (includeLabels excludeLabels : List String)
    (raw : List GoogleContact) : List GoogleContact :=
  let _contactsByLabel := googleFilterByLabel includeLabels excludeLabels raw
  let contactsFiltered := filterUnnamedContacts raw
  contactsFiltered

/-! ## MonicaHelper embedding

`helpers/MonicaHelper.py`.  A Monica contact becomes `MonicaContact`;
nullable JSON strings become `Option String` (the source guards them with
`or ""`).  The `date` fields under `information.dates` are represented by
their parsed `datetime` denotation (`__convert_monica_timestamp` extracts
year/month/day), with `none` for JSON null.
-/

/-- Year/month/day of a parsed Monica timestamp. -/
structure MDate where
  year : Nat
  month : Nat
  day : Nat
deriving DecidableEq, Repr

/-- `information.dates.birthdate` of a Monica contact. -/
structure MonicaBirthdate where
  date : Option MDate := none
  is_age_based : Bool := false
  is_year_unknown : Bool := false
deriving DecidableEq, Repr

/-- `information.dates.deceased_date` of a Monica contact. -/
structure MonicaDeceased where
  date : Option MDate := none
  is_age_based : Option Bool := none
deriving DecidableEq, Repr

/-- A Monica contact, restricted to the fields the sync engine reads. -/
structure MonicaContact where
  id : Nat
  first_name : Option String := none
  last_name : Option String := none
  nickname : Option String := none
  complete_name : String := ""
  gender_type : Option String := none
  is_dead : Bool := false
  birthdate : MonicaBirthdate := {}
  deceased_date : MonicaDeceased := {}
  updated_at : String := ""
deriving DecidableEq, Repr

/-- Model of the `{gender type: gender id}` dict of `get_gender_mapping`. -/
def lookupNat : List (String × Nat) → String → Option Nat
  | [], _ => none
  | p :: t, k => if p.1 = k then some p.2 else lookupNat t k

/-- The `self.data` dict built by `MonicaContactUploadForm.__init__`. -/
structure MonicaUploadPayload where
  first_name : String
  last_name : Option String
  nickname : Option String
  middle_name : Option String
  gender_id : Option Nat
  birthdate_day : Option Nat
  birthdate_month : Option Nat
  birthdate_year : Option Nat
  birthdate_is_age_based : Bool
  deceased_date_add_reminder : Bool
  birthdate_add_reminder : Bool
  is_birthdate_known : Bool
  is_deceased : Bool
  is_deceased_date_known : Bool
  deceased_date_day : Option Nat
  deceased_date_month : Option Nat
  deceased_date_year : Option Nat
  deceased_date_is_age_based : Option Bool
deriving DecidableEq, Repr

/-- The keyword arguments of `MonicaContactUploadForm(monica, first_name,
**form_data)`.  Defaults mirror the `.get(key, default)` fallbacks; for
`gender_type` the outer `Option` distinguishes an absent key (which defaults
to the string O) from a present-but-null value. -/
structure MonicaFormArgs where
  first_name : String
  gender_type : Option (Option String) := none
  last_name : Option String := none
  nick_name : Option String := none
  middle_name : Option String := none
  birthdate_day : Option Nat := none
  birthdate_month : Option Nat := none
  birthdate_year : Option Nat := none
  is_birthdate_age_based : Bool := false
  create_reminders : Option Bool := none
  is_birthdate_known : Bool := false
  is_deceased : Bool := false
  is_deceased_date_known : Bool := false
  deceased_day : Option Nat := none
  deceased_month : Option Nat := none
  deceased_year : Option Nat := none
  deceased_age_based : Option Bool := none
deriving DecidableEq, Repr

/-- `MonicaContactUploadForm.__init__`: assemble the upload payload from the
keyword arguments and the gender mapping. -/
def monicaUploadFormData (genderMapping : List (String × Nat))
    (a : MonicaFormArgs) : MonicaUploadPayload :=
  let gender_id : Option Nat :=
    match a.gender_type with
    | none => lookupNat genderMapping "O"
    | some none => none
    | some (some g) => lookupNat genderMapping g
  { first_name := a.first_name,
    last_name := a.last_name,
    nickname := a.nick_name,
    middle_name := a.middle_name,
    gender_id := gender_id,
    birthdate_day := a.birthdate_day,
    birthdate_month := a.birthdate_month,
    birthdate_year := a.birthdate_year,
    birthdate_is_age_based := a.is_birthdate_age_based,
    deceased_date_add_reminder := a.create_reminders.getD true,
    birthdate_add_reminder := a.create_reminders.getD true,
    is_birthdate_known := a.is_birthdate_known,
    is_deceased := a.is_deceased,
    is_deceased_date_known := a.is_deceased_date_known,
    deceased_date_day := a.deceased_day,
    deceased_date_month := a.deceased_month,
    deceased_date_year := a.deceased_year,
    deceased_date_is_age_based := a.deceased_age_based }

/-! ## Retry policy (`Monica.__is_temp_error`)

The shared while-loop of the Monica api calls: on a non-success response the
error is classified; a rate-limit response sleeps the server's `Retry-After`
seconds and retries without touching the counter, any other error retries
after 0.5 s while `self.retries` (an instance attribute that is never reset)
is below `max_retries`.  When the classifier declines, every call site except
`update_career` raises `MonicaFetchError`; `update_career`'s `else` branch
only logs a warning and falls back into its `while True` loop, re-issuing the
request without raising and without sleeping.  Sleeps are tracked in
milliseconds.
-/

/-- Classification of a non-success Monica response. -/
inductive MonicaErrKind where
  | rateLimited (retryAfter : Nat)
  | other
deriving DecidableEq, Repr

/-- `max_retries = 5` in `Monica.__is_temp_error`. -/
def maxRetries : Nat := 5

/-- `waiting_time = 0.5` seconds, in milliseconds. -/
def waitingTimeMs : Nat := 500

/-- `Monica.__is_temp_error`: returns (retry decision, new value of
`self.retries`, sleep in milliseconds). -/
def isTempError (retries : Nat) : MonicaErrKind → Bool × Nat × Nat
  | MonicaErrKind.rateLimited sec => (true, retries, sec * 1000)
  | MonicaErrKind.other =>
    if retries < maxRetries then (true, retries + 1, waitingTimeMs)
    else (false, retries, 0)

/-- One wrapped Monica api call of the raising kind (every call site except
`update_career`: contact create/update/delete, the fetches, notes, tags,
addresses and contact fields all raise `MonicaFetchError` when the classifier
declines).  The argument lists the non-success responses the server produces
before the call would succeed.  Returns (call succeeded, final
`self.retries`, sleeps performed in milliseconds). -/
def runMonicaCall (retries : Nat) : List MonicaErrKind → Bool × Nat × List Nat
  | [] => (true, retries, [])
  | e :: rest =>
    let r := isTempError retries e
    if r.1 then
      let res := runMonicaCall r.2.1 rest
      (res.1, res.2.1, r.2.2 :: res.2.2)
    else (false, retries, [])

/-- The wrapped `Monica.update_career` call: when the classifier declines,
the `else` branch only logs a warning and the `while True` loop re-issues
the request, without raising and without sleeping.  The call therefore
consumes every listed non-success response and succeeds.  Returns (final
`self.retries`, sleeps performed in milliseconds, warnings logged for
non-propagated errors). -/
def runUpdateCareerCall (retries : Nat) : List MonicaErrKind → Nat × List Nat × Nat
  | [] => (retries, [], 0)
  | e :: rest =>
    let r := isTempError retries e
    let res := runUpdateCareerCall r.2.1 rest
    if r.1 then (res.1, r.2.2 :: res.2.1, res.2.2)
    else (res.1, res.2.1, res.2.2 + 1)

/-- Number of non-rate-limit errors in a response sequence. -/
def countOther : List MonicaErrKind → Nat
  | [] => 0
  | MonicaErrKind.rateLimited _ :: rest => countOther rest
  | MonicaErrKind.other :: rest => countOther rest + 1

/-- Sleep performed for one retried error, in milliseconds. -/
def sleepOfErr : MonicaErrKind → Nat
  | MonicaErrKind.rateLimited sec => sec * 1000
  | MonicaErrKind.other => waitingTimeMs

/-! ## SyncHelper embedding: names, forms, merge

`helpers/SyncHelper.py`.  Truthiness of Python strings is the non-empty
test; `x or ""` on a nullable string is `Option.getD ""`.
-/

/-- Truthiness of an optional number, as in `all([birthdate_month,
birthdate_day])`: present and non-zero. -/
def truthyNat : Option Nat → Bool
  | some n => n ≠ 0
  | none => false

/-- `Sync.__get_monica_middle_name`: recover the hidden middle name by
slicing the complete name.  The Python `try` never fires: slicing cannot
raise. -/
def getMonicaMiddleName (first_name last_name nickname full_name : String) : String :=
  let nickname_length : Int := if nickname ≠ "" then (nickname.length : Int) + 3 else 0
  pyStrip (pySliceStr full_name (first_name.length : Int)
    ((full_name.length : Int) - ((last_name.length : Int) + nickname_length)))

/-- `Sync.__get_monica_names_from_google_contact`: prepend the honorific
prefix to the given name and append the suffix to the family name. -/
def getMonicaNamesFromGoogleContact (c : GoogleContact) : String × String :=
  let n := getContactNames c
  let given := if n.pfx ≠ "" then pyStrip (n.pfx ++ " " ++ n.givenName) else n.givenName
  let family := if n.sfx ≠ "" then pyStrip (n.familyName ++ " " ++ n.sfx) else n.familyName
  (given, family)

/-- `Sync.__get_monica_details`: the `form_data` kwargs derived from a Google
contact (names and birthday; `first_name` falls back to the display name). -/
def getMonicaDetails (create_reminders : Bool) (c : GoogleContact) : MonicaFormArgs :=
  let names0 := getMonicaNamesFromGoogleContact c
  let middle_name := (getContactNames c).middleName
  let display_name := (getContactNames c).displayName
  let nickname := (getContactNames c).nickname
  let first_name := if names0.1 = "" then display_name else names0.1
  let last_name := if names0.1 = "" then "" else names0.2
  let bYear := (c.birthdays.map (fun b => b.year)).getD none
  let bMonth := (c.birthdays.map (fun b => b.month)).getD none
  let bDay := (c.birthdays.map (fun b => b.day)).getD none
  let is_birthdate_known := truthyNat bMonth && truthyNat bDay
  { first_name := first_name,
    last_name := some last_name,
    middle_name := some middle_name,
    nick_name := some nickname,
    birthdate_day := if is_birthdate_known then bDay else none,
    birthdate_month := if is_birthdate_known then bMonth else none,
    birthdate_year := if is_birthdate_known then bYear else none,
    is_birthdate_known := is_birthdate_known,
    create_reminders := some create_reminders }

/-- `Sync.__get_monica_form`: rebuild a comparison upload form from a Monica
contact's current data. -/
def getMonicaForm (genderMapping : List (String × Nat)) (create_reminders : Bool)
    (m : MonicaContact) : MonicaUploadPayload :=
  let first_name := m.first_name.getD ""
  let last_name := m.last_name.getD ""
  let full_name := m.complete_name
  let nickname := m.nickname.getD ""
  let middle_name := getMonicaMiddleName first_name last_name nickname full_name
  let bYear := match m.birthdate.date with
    | some d => if ¬ m.birthdate.is_year_unknown then some d.year else none
    | none => none
  let bMonth := m.birthdate.date.map (fun d => d.month)
  let bDay := m.birthdate.date.map (fun d => d.day)
  let dYear := m.deceased_date.date.map (fun d => d.year)
  let dMonth := m.deceased_date.date.map (fun d => d.month)
  let dDay := m.deceased_date.date.map (fun d => d.day)
  monicaUploadFormData genderMapping
    { first_name := first_name,
      gender_type := some m.gender_type,
      last_name := some last_name,
      nick_name := some nickname,
      middle_name := some middle_name,
      birthdate_day := bDay,
      birthdate_month := bMonth,
      birthdate_year := bYear,
      is_birthdate_known := m.birthdate.date.isSome,
      is_deceased := m.is_dead,
      is_deceased_date_known := m.deceased_date.date.isSome,
      deceased_day := dDay,
      deceased_month := dMonth,
      deceased_year := dYear,
      deceased_age_based := m.deceased_date.is_age_based,
      create_reminders := some create_reminders }

/-- The `google_form` of `Sync.__merge_and_update_nbd`: names and birthday
from the Google contact (`__get_monica_details`) plus the deceased fields
taken from the Monica contact's current data. -/
def googleSideForm (genderMapping : List (String × Nat)) (create_reminders : Bool)
    (m : MonicaContact) (g : GoogleContact) : MonicaUploadPayload :=
  let namesAndBirthday := getMonicaDetails create_reminders g
  let dYear := m.deceased_date.date.map (fun d => d.year)
  let dMonth := m.deceased_date.date.map (fun d => d.month)
  let dDay := m.deceased_date.date.map (fun d => d.day)
  monicaUploadFormData genderMapping
    { namesAndBirthday with
      is_deceased := m.is_dead,
      is_deceased_date_known := m.deceased_date.date.isSome,
      deceased_day := dDay,
      deceased_month := dMonth,
      deceased_year := dYear,
      deceased_age_based := m.deceased_date.is_age_based }

/-- `Sync.__merge_and_update_nbd`: build the Google-derived form and the
Monica-derived form, compare, and call `monica.update_contact` with the
Google-derived data only when they differ.  The result is the single update
call issued, if any. -/
def mergeAndUpdateNbd (genderMapping : List (String × Nat)) (create_reminders : Bool)
    (m : MonicaContact) (g : GoogleContact) : Option (Nat × MonicaUploadPayload) :=
  let google_form := googleSideForm genderMapping create_reminders m g
  let monica_form := getMonicaForm genderMapping create_reminders m
  if google_form = monica_form then none
  else some (m.id, google_form)

/-! ## SyncHelper embedding: initial-database matching -/

/-- Candidate test of `Sync.__simple_monica_id_search` for one Monica
contact: unassigned (its id is not among the forward map's values) and at
least one of the three name matches holds. -/
def simpleSearchIsMatch (g : GoogleContact) (m : MonicaContact) : Bool :=
  let n := getContactNames g
  let m_first := m.first_name.getD ""
  let m_last := m.last_name.getD ""
  let m_full := m.complete_name
  let m_nick := m.nickname.getD ""
  let m_middle := getMonicaMiddleName m_first m_last m_nick m_full
  let is_display_name_match := n.displayName = m_full
  let has_names := n.givenName ≠ "" && n.familyName ≠ ""
  let is_without_prefix_match := has_names && (n.givenName ++ " " ++ n.familyName = m_full)
  let is_first_last_middle_name_match :=
    m_first = n.givenName && m_middle = n.middleName && m_last = n.familyName
  is_display_name_match || is_without_prefix_match || is_first_last_middle_name_match

/-- The candidate list collected by `Sync.__simple_monica_id_search`. -/
def simpleSearchCandidates (mapping : List (String × String))
    (monicaContacts : List MonicaContact) (g : GoogleContact) : List MonicaContact :=
  monicaContacts.filter
    (fun m => !(isDictValue mapping (toString m.id)) && simpleSearchIsMatch g m)

/-- Decision of `Sync.__simple_monica_id_search`: bind exactly when the
candidate list is a singleton, else fail (return `None`). -/
def simpleMonicaIdSearch (mapping : List (String × String))
    (monicaContacts : List MonicaContact) (g : GoogleContact) : Option MonicaContact :=
  let candidates := simpleSearchCandidates mapping monicaContacts g
  if candidates.length = 1 then candidates[0]? else none

/-- State threaded by `Sync.__build_sync_database`: the store table, the two
in-memory maps, and the conflicts deferred to the interactive pass. -/
structure BuildState where
  table : List DatabaseEntry
  maps : SyncMaps
  conflicts : List GoogleContact
deriving DecidableEq, Repr

/-- One Google contact of the non-interactive pass of
`Sync.__build_sync_database`: on a unique match, write the pairing to the
store and both maps; otherwise defer the contact to the conflict list. -/
def buildStep (monicaContacts : List MonicaContact) (st : BuildState)
    (g : GoogleContact) : BuildState :=
  match simpleMonicaIdSearch st.maps.mapping monicaContacts g with
  | some m =>
    let entry : DatabaseEntry :=
      { google_id := g.resourceName,
        monica_id := toString m.id,
        google_full_name := (getContactNames g).displayName,
        monica_full_name := m.complete_name }
    { st with
      table := (insertData st.table entry).1,
      maps := updateMapping st.maps g.resourceName (toString m.id) }
  | none => { st with conflicts := st.conflicts ++ [g] }

/-- The whole non-interactive pass over the fetched Google contacts. -/
def buildNonInteractivePass (monicaContacts : List MonicaContact)
    (googleContacts : List GoogleContact) (st : BuildState) : BuildState :=
  googleContacts.foldl (buildStep monicaContacts) st

/-! ## SyncHelper embedding: sync-type dispatch and the full/delta body -/

/-- Which branch `Sync.start_sync` takes. -/
inductive SyncDispatch where
  | initialRun
  | badUserInputAbort
  | syncRun (sync_type : String) (is_date_based_sync : Bool)
  | syncBackRun
  | noRun
deriving DecidableEq, Repr

/-- The `if`/`elif` chain of `Sync.start_sync`: requested type, the loaded
forward map, and the stored sync token decide the branch.  An explicitly
requested full sync passes `is_date_based_sync=False`; a delta request
without a token degrades to a date-based full sync. -/
def startSyncDispatch (sync_type : String) (mapping : List (String × String))
    (next_sync_token : Option String) : SyncDispatch :=
  if sync_type = "initial" then SyncDispatch.initialRun
  else if mapping.isEmpty then SyncDispatch.badUserInputAbort
  else if sync_type = "full" then SyncDispatch.syncRun "full" false
  else if sync_type = "delta" && next_sync_token.isNone then SyncDispatch.syncRun "full" true
  else if sync_type = "delta" then SyncDispatch.syncRun "delta" true
  else if sync_type = "syncBack" then SyncDispatch.syncBackRun
  else SyncDispatch.noRun

/-- Steps of `Sync.__initial_sync`. -/
inductive SyncStep where
  | resetStore
  | buildDatabase
  | promptFull
  | runFull (is_date_based_sync : Bool)
deriving DecidableEq, Repr

/-- `Sync.__initial_sync`: reset the store and the in-memory map, build the
sync database, prompt, then (unless the user aborts) run a full sync with
`is_date_based_sync=False`.  The boolean result records a user abort. -/
def initialSyncSteps (userConfirms : Bool) : List SyncStep × Bool :=
  if userConfirms then
    ([SyncStep.resetStore, SyncStep.buildDatabase, SyncStep.promptFull,
      SyncStep.runFull false], false)
  else
    ([SyncStep.resetStore, SyncStep.buildDatabase, SyncStep.promptFull], true)

/-- Parsed `datetime` of `Sync.__convert_google_timestamp`. -/
structure GDateTime where
  year : Nat
  month : Nat
  day : Nat
  hour : Nat
  minute : Nat
  second : Nat
  micro : Nat
deriving DecidableEq, Repr

/-- Split a character list at every occurrence of a separator. -/
def splitOnChar (sep : Char) : List Char → List (List Char)
  | [] => [[]]
  | x :: xs =>
    match splitOnChar sep xs with
    | [] => [[]]
    | h :: t => if x = sep then [] :: h :: t else (x :: h) :: t

/-- Numeric value of a digit list. -/
def digitsVal (l : List Char) : Nat :=
  l.foldl (fun acc c => acc * 10 + (c.toNat - 48)) 0

/-- Digit-group parse used by the timestamp parser: one to `maxLen` digits,
value within `lo..hi`. -/
def parseNatIn (l : List Char) (maxLen lo hi : Nat) : Option Nat :=
  if 1 ≤ l.length ∧ l.length ≤ maxLen ∧ l.all Char.isDigit then
    let n := digitsVal l
    if lo ≤ n ∧ n ≤ hi then some n else none
  else none

/-- `Sync.__convert_google_timestamp`: `datetime.strptime(timestamp,
"%Y-%m-%dT%H:%M:%S.%fZ")` on the fixed format, `none` on `ValueError`.  The
fraction is right-padded to microseconds as `%f` does. -/
def convertGoogleTimestamp (s : String) : Option GDateTime :=
  match splitOnChar 'T' s.data with
  | [d, t] =>
    match splitOnChar '-' d with
    | [ys, ms, ds] =>
      if t.getLast? = some 'Z' then
        match splitOnChar ':' t.dropLast with
        | [hs, mins, secs] =>
          match splitOnChar '.' secs with
          | [ss, fs] => do
            let y ← parseNatIn ys 4 0 9999
            let mo ← parseNatIn ms 2 1 12
            let da ← parseNatIn ds 2 1 31
            let h ← parseNatIn hs 2 0 23
            let mi ← parseNatIn mins 2 0 59
            let se ← parseNatIn ss 2 0 61
            let f ← parseNatIn fs 6 0 999999
            some ⟨y, mo, da, h, mi, se, f * 10 ^ (6 - fs.length)⟩
          | _ => none
        | _ => none
      else none
    | _ => none
  | _ => none

/-- `Database.find_by_id(google_id=...)`: first row whose googleId matches. -/
def findByGoogleId (t : List DatabaseEntry) (gid : String) : Option DatabaseEntry :=
  t.find? (fun r => r.google_id = gid)

/-- Branch taken by the per-contact body of `Sync.__sync`. -/
inductive ContactAction where
  | deleteBranch
  | createBranch
  | skip
  | mergeBranch
deriving DecidableEq, Repr

/-- The per-contact decision of `Sync.__sync`: deleted contacts are torn
down; contacts without a store row get the creation path; otherwise the
contact is skipped when `is_date_based_sync` holds and the parsed stored
timestamp equals the parsed remote timestamp, else merged. -/
def syncContactAction (t : List DatabaseEntry) (is_date_based_sync : Bool)
    (g : GoogleContact) : ContactAction :=
  if g.deleted then ContactAction.deleteBranch
  else
    match findByGoogleId t g.resourceName with
    | none => ContactAction.createBranch
    | some entry =>
      if is_date_based_sync &&
          convertGoogleTimestamp entry.google_last_changed
            = convertGoogleTimestamp g.updateTime then
        ContactAction.skip
      else ContactAction.mergeBranch

/-- Externally visible work done for one visited contact in `Sync.__sync`. -/
inductive SyncEffect where
  | deleteMonicaFlow (gid : String)
  | createMonicaContact (gid : String)
  | dbInsert (gid : String)
  | fetchMonicaCounterpart (gid : String)
  | mergeNbd (gid : String)
  | dbStampUpdate (gid : String)
  | detailSync (gid : String)
deriving DecidableEq, Repr

/-- Effects the per-contact body issues for one visited Google contact: a
skipped contact causes no Monica fetch, no merge, no store write and no
detail sync. -/
def syncContactEffects (t : List DatabaseEntry) (is_date_based_sync : Bool)
    (g : GoogleContact) : List SyncEffect :=
  match syncContactAction t is_date_based_sync g with
  | ContactAction.deleteBranch => [SyncEffect.deleteMonicaFlow g.resourceName]
  | ContactAction.createBranch =>
    [SyncEffect.createMonicaContact g.resourceName, SyncEffect.dbInsert g.resourceName,
     SyncEffect.detailSync g.resourceName]
  | ContactAction.skip => []
  | ContactAction.mergeBranch =>
    [SyncEffect.fetchMonicaCounterpart g.resourceName, SyncEffect.mergeNbd g.resourceName,
     SyncEffect.dbStampUpdate g.resourceName, SyncEffect.fetchMonicaCounterpart g.resourceName,
     SyncEffect.detailSync g.resourceName]

/-! ## SyncHelper embedding: consistency check (`Sync.check_database`) -/

/-- Calls `check_database` can make, together with the mutating calls the
other flows use; the check must emit only the reading ones. -/
inductive CheckEffect where
  | googleListAll
  | monicaListAll
  | monicaGetContact (id : String)
  | googleGetContact (id : String)
  | dbFindByGoogleId (id : String)
  | dbInsertRow
  | dbUpdateRow
  | dbDeleteRow
  | monicaWrite
  | googleWrite
deriving DecidableEq, Repr

/-- Read-only calls: fetches and store lookups. -/
def checkEffectIsRead : CheckEffect → Bool
  | CheckEffect.dbInsertRow => false
  | CheckEffect.dbUpdateRow => false
  | CheckEffect.dbDeleteRow => false
  | CheckEffect.monicaWrite => false
  | CheckEffect.googleWrite => false
  | _ => true

/-- Membership of an id in the fetched Monica list (a `get_contact` on a
fetched id succeeds exactly when the remote still has it). -/
def monicaHasId (monicaContacts : List MonicaContact) (mid : String) : Bool :=
  monicaContacts.any (fun m => toString m.id = mid)

/-- Membership of an id in the fetched Google list. -/
def googleHasId (googleContacts : List GoogleContact) (gid : String) : Bool :=
  googleContacts.any (fun c => c.resourceName = gid)

/-- One Google contact of `Sync.__check_google_contacts`: unmapped contacts
are collected as not-in-sync; mapped ones cost one Monica fetch, counting an
error when the counterpart is gone. -/
def checkGoogleStep (maps : SyncMaps) (monicaContacts : List MonicaContact)
    (acc : List GoogleContact × Nat × List CheckEffect) (gc : GoogleContact) :
    List GoogleContact × Nat × List CheckEffect :=
  match lookupStr maps.mapping gc.resourceName with
  | none => (acc.1 ++ [gc], acc.2.1, acc.2.2)
  | some mid =>
    if monicaHasId monicaContacts mid then
      (acc.1, acc.2.1, acc.2.2 ++ [CheckEffect.monicaGetContact mid])
    else
      (acc.1, acc.2.1 + 1, acc.2.2 ++ [CheckEffect.monicaGetContact mid])

/-- One Monica contact of `Sync.__check_monica_contacts`. -/
def checkMonicaStep (maps : SyncMaps) (googleContacts : List GoogleContact)
    (acc : List MonicaContact × Nat × List CheckEffect) (mc : MonicaContact) :
    List MonicaContact × Nat × List CheckEffect :=
  match lookupStr maps.reverse_mapping (toString mc.id) with
  | none => (acc.1 ++ [mc], acc.2.1, acc.2.2)
  | some gid =>
    if googleHasId googleContacts gid then
      (acc.1, acc.2.1, acc.2.2 ++ [CheckEffect.googleGetContact gid])
    else
      (acc.1, acc.2.1 + 1, acc.2.2 ++ [CheckEffect.googleGetContact gid])

/-- Report produced by `Sync.check_database`. -/
structure CheckReport where
  googleNotSynced : List GoogleContact
  monicaNotSynced : List MonicaContact
  errors : Nat
  orphaned : List (String × String)
deriving DecidableEq, Repr

/-- `Sync.check_database` over the freshly fetched contact lists: both
per-contact passes, then the orphan scan over the forward map (a stored
pairing is orphaned when neither id is present remotely), then the
`find_by_id` lookups `__check_results` performs to log each orphan.  The
second component is the full trace of calls made. -/
def checkDatabaseRun (maps : SyncMaps) (googleContacts : List GoogleContact)
    (monicaContacts : List MonicaContact) : CheckReport × List CheckEffect :=
  let gPass := googleContacts.foldl (checkGoogleStep maps monicaContacts) ([], 0, [])
  let mPass := monicaContacts.foldl (checkMonicaStep maps googleContacts) ([], 0, [])
  let googleIds := googleContacts.map (fun c => c.resourceName)
  let monicaIds := monicaContacts.map (fun c => toString c.id)
  let orphaned := maps.mapping.filter
    (fun p => !googleIds.contains p.1 && !monicaIds.contains p.2)
  ({ googleNotSynced := gPass.1,
     monicaNotSynced := mPass.1,
     errors := gPass.2.1 + mPass.2.1,
     orphaned := orphaned },
   [CheckEffect.googleListAll, CheckEffect.monicaListAll] ++ gPass.2.2 ++ mPass.2.2
     ++ orphaned.map (fun p => CheckEffect.dbFindByGoogleId p.1))

/-! ## Concrete evaluation fixtures -/

/-- A Monica contact used to evaluate the matching pass. -/
def c3Monica : MonicaContact :=
  { id := 7, first_name := some "Jane", last_name := some "Doe",
    complete_name := "Jane Doe" }

/-- A Google contact whose display name matches `c3Monica`. -/
def c3Google : GoogleContact :=
  { resourceName := "g7",
    names := some { givenName := "Jane", familyName := "Doe", displayName := "Jane Doe" } }

/-- An empty initial build state. -/
def c3State : BuildState :=
  { table := [], maps := ⟨[], []⟩, conflicts := [] }

/-- A store row whose stored timestamp equals the remote one of
`c5Contact`. -/
def c5Entry : DatabaseEntry :=
  { google_id := "g1", monica_id := "1", google_full_name := "Jane Doe",
    monica_full_name := "Jane Doe",
    google_last_changed := "2021-01-01T10:20:30.000000Z",
    monica_last_changed := "2021-01-01T11:00:00Z" }

/-- A non-deleted Google contact with the same change timestamp as the
stored row `c5Entry`. -/
def c5Contact : GoogleContact :=
  { resourceName := "g1",
    names := some { givenName := "Jane", familyName := "Doe", displayName := "Jane Doe" },
    updateTime := "2021-01-01T10:20:30.000000Z" }

/-- A Monica contact whose current data differs from `c2Google`. -/
def c2Monica : MonicaContact :=
  { id := 3, first_name := some "Bob", complete_name := "Bob" }

/-- A Google contact whose names differ from `c2Monica`. -/
def c2Google : GoogleContact :=
  { resourceName := "g3",
    names := some { givenName := "Alice", familyName := "Smith",
                    displayName := "Alice Smith" } }

/-! ## Theorems -/

theorem lookupStr_dictUpdate (l : List (String × String)) (k v x : String) :
    lookupStr (dictUpdate l k v) x = if k = x then some v else lookupStr l x := by
  induction l with
  | nil => by_cases h : k = x <;> simp [dictUpdate, lookupStr, h]
  | cons p t ih =>
    by_cases hpk : p.1 = k
    · by_cases hkx : k = x
      · simp [dictUpdate, lookupStr, hpk, hkx]
      · have hpx : ¬ p.1 = x := by rw [hpk]; exact hkx
        simp [dictUpdate, lookupStr, hpk, hkx, hpx]
    · by_cases hpx : p.1 = x
      · have hkx : ¬ k = x := by intro h; rw [h] at hpk; exact hpk hpx
        have hxk : ¬ x = k := fun h => hkx h.symm
        simp [dictUpdate, lookupStr, hpk, hpx, hkx, hxk]
      · simp [dictUpdate, lookupStr, hpk, hpx, ih]

theorem lookupStr_eq_none_of_keys_ne (l : List (String × String)) (k : String)
    (h : ∀ p ∈ l, p.1 ≠ k) : lookupStr l k = none := by
  induction l with
  | nil => rfl
  | cons p t ih =>
    simp only [lookupStr]
    rw [if_neg (h p (by simp))]
    exact ih (fun q hq => h q (List.mem_cons_of_mem _ hq))

theorem lookupStr_dictPop (l : List (String × String)) (k x : String)
    (huniq : l.Pairwise (fun a b => a.1 ≠ b.1)) :
    lookupStr (dictPop l k) x = if k = x then none else lookupStr l x := by
  induction l with
  | nil => by_cases h : k = x <;> simp [dictPop, lookupStr, h]
  | cons p t ih =>
    have hhead := (List.pairwise_cons.mp huniq).1
    have huniq' := (List.pairwise_cons.mp huniq).2
    by_cases hpk : p.1 = k
    · by_cases hkx : k = x
      · subst hkx
        simp only [dictPop, hpk, if_true, if_pos rfl]
        exact lookupStr_eq_none_of_keys_ne t k (fun q hq => by
          have := hhead q hq
          rw [hpk] at this
          exact fun h => this h.symm)
      · have hpx : ¬ p.1 = x := by rw [hpk]; exact hkx
        simp [dictPop, lookupStr, hpk, hkx, hpx]
    · by_cases hpx : p.1 = x
      · have hkx : ¬ k = x := by intro h; rw [h] at hpk; exact hpk hpx
        have hxk : ¬ x = k := fun h => hkx h.symm
        simp [dictPop, lookupStr, hpk, hpx, hkx, hxk]
      · simp [dictPop, lookupStr, hpk, hpx, ih huniq']

theorem uniqueIds_map_of_ids_fixed (t : List DatabaseEntry) (f : DatabaseEntry → DatabaseEntry)
    (hf : ∀ r, (f r).google_id = r.google_id ∧ (f r).monica_id = r.monica_id)
    (h : uniqueIds t) : uniqueIds (t.map f) := by
  unfold uniqueIds at *
  rw [List.pairwise_map]
  refine h.imp ?_
  intro a b hab
  rw [(hf a).1, (hf a).2, (hf b).1, (hf b).2]
  exact hab

theorem uniqueIds_updateFullNameByMonicaId (t : List DatabaseEntry) (mid name : String)
    (h : uniqueIds t) : uniqueIds (updateFullNameByMonicaId t mid name) := by
  refine uniqueIds_map_of_ids_fixed t _ ?_ h
  intro r
  by_cases hr : r.monica_id = mid <;> simp [hr]

theorem uniqueIds_updateFullNameByGoogleId (t : List DatabaseEntry) (gid name : String)
    (h : uniqueIds t) : uniqueIds (updateFullNameByGoogleId t gid name) := by
  refine uniqueIds_map_of_ids_fixed t _ ?_ h
  intro r
  by_cases hr : r.google_id = gid <;> simp [hr]

theorem uniqueIds_updateMonicaLastChanged (t : List DatabaseEntry) (mid stamp : String)
    (h : uniqueIds t) : uniqueIds (updateMonicaLastChanged t mid stamp) := by
  refine uniqueIds_map_of_ids_fixed t _ ?_ h
  intro r
  by_cases hr : r.monica_id = mid <;> simp [hr]

theorem uniqueIds_updateGoogleLastChanged (t : List DatabaseEntry) (gid stamp : String)
    (h : uniqueIds t) : uniqueIds (updateGoogleLastChanged t gid stamp) := by
  refine uniqueIds_map_of_ids_fixed t _ ?_ h
  intro r
  by_cases hr : r.google_id = gid <;> simp [hr]

theorem uniqueIds_insertData (t : List DatabaseEntry) (e : DatabaseEntry)
    (h : uniqueIds t) : uniqueIds (insertData t e).1 := by
  unfold insertData
  by_cases hc : t.any (fun r => r.google_id = e.google_id || r.monica_id = e.monica_id)
  · simpa [hc] using h
  · simp only [hc, Bool.false_eq_true, if_false]
    unfold uniqueIds at *
    rw [List.pairwise_append]
    refine ⟨h, List.pairwise_singleton _ _, ?_⟩
    intro a ha b hb
    simp only [List.mem_singleton] at hb
    subst hb
    constructor
    · intro hg
      exact hc (List.any_eq_true.mpr ⟨a, ha, by simp [hg]⟩)
    · intro hmi
      exact hc (List.any_eq_true.mpr ⟨a, ha, by simp [hmi]⟩)

theorem uniqueIds_updateEntryGoogleSide (t : List DatabaseEntry) (e : DatabaseEntry)
    (h : uniqueIds t) : uniqueIds (updateEntryGoogleSide t e).1 := by
  unfold updateEntryGoogleSide
  by_cases hg : e.google_id ≠ ""
  · by_cases hn : e.google_full_name ≠ "" <;>
      by_cases hl : e.google_last_changed ≠ "" <;>
        simp [hg, hn, hl, uniqueIds_updateGoogleLastChanged, uniqueIds_updateFullNameByGoogleId, h]
  · simpa [hg] using h

theorem uniqueIds_updateEntryMonicaSide (t : List DatabaseEntry) (e : DatabaseEntry)
    (h : uniqueIds t) : uniqueIds (updateEntryMonicaSide t e).1 := by
  unfold updateEntryMonicaSide
  by_cases hm : e.monica_id ≠ ""
  · by_cases hn : e.monica_full_name ≠ "" <;>
      by_cases hl : e.monica_last_changed ≠ "" <;>
        simp [hm, hn, hl, uniqueIds_updateMonicaLastChanged, uniqueIds_updateFullNameByMonicaId, h]
  · simpa [hm] using h

theorem uniqueIds_updateEntry (t : List DatabaseEntry) (e : DatabaseEntry)
    (h : uniqueIds t) : uniqueIds (updateEntry t e).1 := by
  unfold updateEntry
  rcases h1 : updateEntryMonicaSide t e with ⟨t1, err1⟩
  have ht1 : uniqueIds t1 := by
    have := uniqueIds_updateEntryMonicaSide t e h
    rw [h1] at this
    exact this
  cases err1 with
  | some err => simpa using ht1
  | none =>
    rcases h2 : updateEntryGoogleSide t1 e with ⟨t2, err2⟩
    have ht2 : uniqueIds t2 := by
      have := uniqueIds_updateEntryGoogleSide t1 e ht1
      rw [h2] at this
      exact this
    cases err2 with
    | some err => simp [h2, ht2]
    | none =>
      by_cases hc : e.monica_id = "" ∧ e.google_id = "" <;> simp [h2, hc, ht2]

theorem uniqueIds_deleteRow (t : List DatabaseEntry) (gid mid : String)
    (h : uniqueIds t) : uniqueIds (deleteRow t gid mid) := by
  unfold uniqueIds at *
  exact h.sublist (List.filter_sublist t)

theorem uniqueIds_applyOp (t : List DatabaseEntry) (op : DbOp)
    (h : uniqueIds t) : uniqueIds (applyOp t op) := by
  cases op with
  | insert e => exact uniqueIds_insertData t e h
  | update e => exact uniqueIds_updateEntry t e h
  | delete gid mid => exact uniqueIds_deleteRow t gid mid h
  | reset => exact List.Pairwise.nil

theorem uniqueIds_foldl (ops : List DbOp) (t : List DatabaseEntry)
    (h : uniqueIds t) : uniqueIds (ops.foldl applyOp t) := by
  induction ops generalizing t with
  | nil => exact h
  | cons op rest ih => exact ih (applyOp t op) (uniqueIds_applyOp t op h)

theorem updateEntryMonicaSide_err (t : List DatabaseEntry) (e : DatabaseEntry) :
    (updateEntryMonicaSide t e).2 =
      if e.monica_id ≠ "" ∧ e.monica_last_changed = "" then some DbError.unknownArguments
      else none := by
  unfold updateEntryMonicaSide
  by_cases hm : e.monica_id = "" <;> by_cases hl : e.monica_last_changed = "" <;>
    by_cases hn : e.monica_full_name = "" <;> simp [hm, hl, hn]

theorem updateEntryGoogleSide_err (t : List DatabaseEntry) (e : DatabaseEntry) :
    (updateEntryGoogleSide t e).2 =
      if e.google_id ≠ "" ∧ e.google_last_changed = "" then some DbError.unknownArguments
      else none := by
  unfold updateEntryGoogleSide
  by_cases hg : e.google_id = "" <;> by_cases hl : e.google_last_changed = "" <;>
    by_cases hn : e.google_full_name = "" <;> simp [hg, hl, hn]

/-- C1: in every table reachable from the freshly initialised store by any
sequence of store mutations performed by the sync flows (inserts from
matching, creation and sync-back, partial updates, row deletions, and the
initial-sync reset), no Google id and no Monica id occurs in more than one
row: the stored pairing relation stays 1:1. -/
theorem c1_mapping_uniqueness_invariant (ops : List DbOp) :
    uniqueIds (runOps ops) := by
  unfold runOps
  exact uniqueIds_foldl ops [] List.Pairwise.nil

/-- C7 counterexample: a partial update that carries a Monica id and supplies
the display-name optional field (but no last-changed value) still fails with
the bad-arguments store error, although the claim says supplying at least one
optional field makes the update succeed. -/
theorem c7_counterexample :
    ({ monica_id := "1", monica_full_name := "John Doe", monica_last_changed := "",
       google_id := "", google_full_name := "", google_last_changed := "" } :
        DatabaseEntry).monica_full_name ≠ "" ∧
    (updateEntry []
      { monica_id := "1", monica_full_name := "John Doe", monica_last_changed := "",
        google_id := "", google_full_name := "", google_last_changed := "" }).2 =
      some DbError.unknownArguments := by
  constructor
  · decide
  · rfl

/-- C7 (amended): a partial update fails with the bad-arguments store error
iff the Monica id is supplied without a Monica last-changed value, or the
Google id is supplied without a Google last-changed value, or neither id is
supplied.  In particular the display name alone does not avert the error; a
supplied last-changed value (with its id) makes the update succeed. -/
theorem c7_update_requires_last_changed (t : List DatabaseEntry) (e : DatabaseEntry) :
    (updateEntry t e).2 = some DbError.unknownArguments ↔
      ((e.monica_id ≠ "" ∧ e.monica_last_changed = "") ∨
       (e.google_id ≠ "" ∧ e.google_last_changed = "") ∨
       (e.monica_id = "" ∧ e.google_id = "")) := by
  unfold updateEntry
  by_cases hm : e.monica_id ≠ "" ∧ e.monica_last_changed = ""
  · simp [updateEntryMonicaSide_err, hm]
  · by_cases hg : e.google_id ≠ "" ∧ e.google_last_changed = ""
    · simp [updateEntryMonicaSide_err, updateEntryGoogleSide_err, hm, hg]
    · by_cases hz : e.monica_id = "" ∧ e.google_id = "" <;>
        simp [updateEntryMonicaSide_err, updateEntryGoogleSide_err, hm, hg, hz]

theorem inverseConsistent_updateMapping (s : SyncMaps) (g m : String)
    (h : inverseConsistent s) (hg : lookupStr s.mapping g = none)
    (hm : lookupStr s.reverse_mapping m = none) :
    inverseConsistent (updateMapping s g m) := by
  intro x y
  unfold updateMapping
  simp only [lookupStr_dictUpdate]
  by_cases hxg : g = x
  · subst hxg
    by_cases hym : m = y
    · subst hym
      simp
    · simp only [if_pos rfl, if_neg hym]
      constructor
      · intro hsome
        injection hsome with h1
        exact absurd h1 hym
      · intro hy
        have := (h g y).mpr hy
        rw [hg] at this
        cases this
  · by_cases hym : m = y
    · subst hym
      simp only [if_neg hxg, if_pos rfl]
      constructor
      · intro hx
        have := (h x m).mp hx
        rw [hm] at this
        cases this
      · intro hsome
        injection hsome with h1
        exact absurd h1 hxg
    · simp only [if_neg hxg, if_neg hym]
      exact h x y

theorem not_inverseConsistent_deleteMaps (s : SyncMaps) (g m : String)
    (huniq : s.mapping.Pairwise (fun a b => a.1 ≠ b.1))
    (h : inverseConsistent s) (hgm : lookupStr s.mapping g = some m) :
    ¬ inverseConsistent (deleteMonicaContactMaps s g) := by
  intro hpost
  have hrev : lookupStr s.reverse_mapping m = some g := (h g m).mp hgm
  have h1 : lookupStr (deleteMonicaContactMaps s g).mapping g = none := by
    unfold deleteMonicaContactMaps
    simp [lookupStr_dictPop _ _ _ huniq]
  have := (hpost g m).mpr hrev
  rw [h1] at this
  cases this

/-- C8 counterexample: with the consistent maps mapping = [(g1, m1)] and
reverse_mapping = [(m1, g1)], the deletion path of a deleted Google contact
pops only the forward entry, after which the reverse map is no longer the
inverse of the forward map. -/
theorem c8_counterexample :
    inverseConsistent ⟨[("g1", "m1")], [("m1", "g1")]⟩ ∧
    ¬ inverseConsistent (deleteMonicaContactMaps ⟨[("g1", "m1")], [("m1", "g1")]⟩ "g1") := by
  constructor
  · intro x y
    simp only [lookupStr]
    by_cases hx : "g1" = x <;> by_cases hy : "m1" = y <;> simp [hx, hy]
  · intro hpost
    have := (hpost "g1" "m1").mpr (by simp [deleteMonicaContactMaps, lookupStr])
    simp [deleteMonicaContactMaps, dictPop, lookupStr] at this

/-- C8 (amended): pairing insertions keep the two in-memory maps in
lock-step: inserting a fresh google id / monica id pair through
`__update_mapping` preserves the exact-inverse invariant.  The deletion path
of a deleted Google contact, however, removes only the forward entry, so
deleting a stored pairing always breaks the exact-inverse invariant, leaving
a stale reverse entry. -/
theorem c8_lockstep_insert_stale_delete (s : SyncMaps) (g m : String) :
    (inverseConsistent s → lookupStr s.mapping g = none →
      lookupStr s.reverse_mapping m = none →
      inverseConsistent (updateMapping s g m)) ∧
    (s.mapping.Pairwise (fun a b => a.1 ≠ b.1) → inverseConsistent s →
      lookupStr s.mapping g = some m →
      ¬ inverseConsistent (deleteMonicaContactMaps s g)) :=
  ⟨fun h hg hm => inverseConsistent_updateMapping s g m h hg hm,
   fun hu h hgm => not_inverseConsistent_deleteMaps s g m hu h hgm⟩

/-- Witness for the C8 amended theorem at concrete inputs. -/
theorem c8_lockstep_insert_stale_delete_witness :
    inverseConsistent (updateMapping ⟨[], []⟩ "g1" "m1") ∧
    ¬ inverseConsistent (deleteMonicaContactMaps ⟨[("g2", "m2")], [("m2", "g2")]⟩ "g2") := by
  constructor
  · exact (c8_lockstep_insert_stale_delete ⟨[], []⟩ "g1" "m1").1
      (fun x y => by simp [lookupStr]) rfl rfl
  · refine (c8_lockstep_insert_stale_delete ⟨[("g2", "m2")], [("m2", "g2")]⟩ "g2" "m2").2
      (by simp) ?_ rfl
    intro x y
    simp only [lookupStr]
    by_cases hx : "g2" = x <;> by_cases hy : "m2" = y <;> simp [hx, hy]

theorem keepNamedOrDeleted_iff (c : GoogleContact) :
    keepNamedOrDeleted c = true ↔
      (c.deleted = true ∨ (hasAnyName c = true ∧ c.names.isSome = true)) := by
  unfold keepNamedOrDeleted
  cases hd : c.deleted <;> cases ha : hasAnyName c <;> cases hn : c.names.isSome <;>
    simp [hd, ha, hn]

/-- C10: the contact list the Google connector ends up holding after a
list-all fetch retains a contact iff it came from the raw response and either
carries the deleted flag or has the names key present with at least one
non-empty name part.  Non-deleted unnamed contacts are dropped; deleted ones
are kept although they have no name. -/
theorem c10_unnamed_contacts_filtered (includeLabels excludeLabels : List String)
    (raw : List GoogleContact) (c : GoogleContact) :
    c ∈ fetchContactsStore includeLabels excludeLabels raw ↔
      c ∈ raw ∧ (c.deleted = true ∨ (hasAnyName c = true ∧ c.names.isSome = true)) := by
  unfold fetchContactsStore filterUnnamedContacts
  rw [List.mem_filter]
  exact and_congr_right (fun _ => keepNamedOrDeleted_iff c)

/-- C4 counterexample: with an empty identity store, a requested full sync
does not run initial sync; `start_sync` aborts with `BadUserInput` asking for
an initial sync instead. -/
theorem c4_counterexample :
    startSyncDispatch "full" [] none = SyncDispatch.badUserInputAbort ∧
    SyncDispatch.badUserInputAbort ≠ SyncDispatch.initialRun := by
  constructor
  · decide
  · decide

/-- C4 (amended): with an empty identity store, only an explicit initial
request runs initial sync (which resets the store, builds the database via
the match resolver and then runs a non-date-based full sync); every other
request type aborts with the bad-user-input error directing the user to run
initial sync first. -/
theorem c4_empty_store_aborts (sync_type : String) (tok : Option String) :
    (startSyncDispatch sync_type [] tok = SyncDispatch.initialRun ↔ sync_type = "initial") ∧
    (sync_type ≠ "initial" →
      startSyncDispatch sync_type [] tok = SyncDispatch.badUserInputAbort) ∧
    initialSyncSteps true =
      ([SyncStep.resetStore, SyncStep.buildDatabase, SyncStep.promptFull,
        SyncStep.runFull false], false) := by
  refine ⟨?_, ?_, rfl⟩
  · by_cases h : sync_type = "initial" <;> simp [startSyncDispatch, h]
  · intro h
    simp [startSyncDispatch, h]

/-- Witness for the C4 amended theorem at the concrete request type full. -/
theorem c4_empty_store_aborts_witness :
    startSyncDispatch "full" [] none = SyncDispatch.badUserInputAbort :=
  (c4_empty_store_aborts "full" none).2.1 (by decide)

/-- C6 counterexample: the retry counter is shared by all calls of the
Monica handler and never reset, so after one call has consumed the budget of
five non-rate-limit retries, the next raising call (a contact update, say)
fails on its very first transient error instead of having its own per-item
budget. -/
theorem c6_counterexample :
    (runMonicaCall 0 [MonicaErrKind.other, MonicaErrKind.other, MonicaErrKind.other,
      MonicaErrKind.other, MonicaErrKind.other]).1 = true ∧
    (runMonicaCall 0 [MonicaErrKind.other, MonicaErrKind.other, MonicaErrKind.other,
      MonicaErrKind.other, MonicaErrKind.other]).2.1 = 5 ∧
    (runMonicaCall 5 [MonicaErrKind.other]).1 = false := by
  decide

theorem runMonicaCall_spec (r : Nat) (errs : List MonicaErrKind) :
    ((runMonicaCall r errs).1 = true ↔
      (countOther errs = 0 ∨ r + countOther errs ≤ maxRetries)) ∧
    ((runMonicaCall r errs).1 = true →
      (runMonicaCall r errs).2.2 = errs.map sleepOfErr ∧
      (runMonicaCall r errs).2.1 = r + countOther errs) := by
  induction errs generalizing r with
  | nil => simp [runMonicaCall, countOther]
  | cons e rest ih =>
    cases e with
    | rateLimited sec =>
      simp only [runMonicaCall, isTempError, if_true, countOther, List.map_cons, sleepOfErr]
      refine ⟨(ih r).1, fun h => ?_⟩
      obtain ⟨h1, h2⟩ := (ih r).2 h
      exact ⟨by rw [h1], h2⟩
    | other =>
      by_cases hr : r < maxRetries
      · simp only [runMonicaCall, isTempError, hr, if_true, countOther, List.map_cons,
          sleepOfErr]
        constructor
        · rw [(ih (r + 1)).1]
          unfold maxRetries at *
          omega
        · intro h
          obtain ⟨h1, h2⟩ := (ih (r + 1)).2 h
          refine ⟨by rw [h1], ?_⟩
          rw [h2]
          omega
      · have hres : runMonicaCall r (MonicaErrKind.other :: rest) = (false, r, []) := by
          simp [runMonicaCall, isTempError, hr]
        rw [hres]
        unfold maxRetries at *
        constructor
        · simp only [Bool.false_eq_true, false_iff, countOther]
          omega
        · intro h
          cases h

theorem runUpdateCareerCall_warnings (r : Nat) (errs : List MonicaErrKind) :
    (runUpdateCareerCall r errs).2.2 = r + countOther errs - max r maxRetries := by
  induction errs generalizing r with
  | nil =>
    simp only [runUpdateCareerCall, countOther]
    omega
  | cons e rest ih =>
    cases e with
    | rateLimited sec =>
      simp only [runUpdateCareerCall, isTempError, if_true, countOther]
      exact ih r
    | other =>
      by_cases hr : r < maxRetries
      · simp only [runUpdateCareerCall, isTempError, hr, if_true, countOther]
        rw [ih (r + 1)]
        unfold maxRetries at *
        omega
      · have hres : runUpdateCareerCall r (MonicaErrKind.other :: rest) =
            ((runUpdateCareerCall r rest).1, (runUpdateCareerCall r rest).2.1,
             (runUpdateCareerCall r rest).2.2 + 1) := by
          simp [runUpdateCareerCall, isTempError, hr]
        rw [hres]
        simp only [countOther]
        rw [ih r]
        unfold maxRetries at *
        omega

/-- C6 (amended): a wrapped Monica call retries unconditionally on rate-limit
responses, sleeping exactly the server-specified wait without touching the
retry counter; non-rate-limit errors are retried with the fixed 0.5 s delay
while the run-global retry counter (shared across all Monica calls, never
reset per item) stays below five.  Once the budget is exhausted, a further
non-rate-limit error propagates as fatal for the raising call sites (every
wrapped call except the career update): such a call succeeds iff it sees no
non-rate-limit error or the counter never exceeds the budget, and on success
its sleeps are exactly the per-error delays and the counter has grown by the
number of non-rate-limit errors.  The career update alone never raises: each
budget-exhausted error is only logged as a warning and the request is
re-issued, the number of warnings being exactly the non-rate-limit errors
beyond the remaining budget. -/
theorem c6_global_retry_budget (r : Nat) (errs : List MonicaErrKind) :
    ((runMonicaCall r errs).1 = true ↔
      (countOther errs = 0 ∨ r + countOther errs ≤ maxRetries)) ∧
    ((runMonicaCall r errs).1 = true →
      (runMonicaCall r errs).2.2 = errs.map sleepOfErr ∧
      (runMonicaCall r errs).2.1 = r + countOther errs) ∧
    ((runUpdateCareerCall r errs).2.2 = r + countOther errs - max r maxRetries) :=
  ⟨(runMonicaCall_spec r errs).1, (runMonicaCall_spec r errs).2,
   runUpdateCareerCall_warnings r errs⟩

/-- Witness for the C6 amended theorem: a call that sees one rate-limit
response and one other transient error, started with the counter at two,
succeeds, sleeps exactly the server wait and the fixed delay, and advances
the shared counter by one; a career update hitting an exhausted counter logs
one warning per error instead of failing. -/
theorem c6_global_retry_budget_witness :
    (runMonicaCall 2 [MonicaErrKind.rateLimited 7, MonicaErrKind.other]).1 = true ∧
    (runMonicaCall 2 [MonicaErrKind.rateLimited 7, MonicaErrKind.other]).2.2
      = [MonicaErrKind.rateLimited 7, MonicaErrKind.other].map sleepOfErr ∧
    (runMonicaCall 2 [MonicaErrKind.rateLimited 7, MonicaErrKind.other]).2.1
      = 2 + countOther [MonicaErrKind.rateLimited 7, MonicaErrKind.other] ∧
    (runUpdateCareerCall 5 [MonicaErrKind.other, MonicaErrKind.other]).2.2
      = 5 + countOther [MonicaErrKind.other, MonicaErrKind.other] - max 5 maxRetries := by
  have h := c6_global_retry_budget 2 [MonicaErrKind.rateLimited 7, MonicaErrKind.other]
  have hsucc : (runMonicaCall 2 [MonicaErrKind.rateLimited 7, MonicaErrKind.other]).1 = true :=
    h.1.mpr (by decide)
  exact ⟨hsucc, (h.2.1 hsucc).1, (h.2.1 hsucc).2,
    (c6_global_retry_budget 5 [MonicaErrKind.other, MonicaErrKind.other]).2.2⟩

/-- C5 counterexample: an explicitly requested full sync dispatches with
`is_date_based_sync=False`, and a visited mapped contact whose remote change
timestamp (parseable, hence meaningful) equals the stored one is then still
processed through the merge branch with its fetches, merge, store write and
detail sync, not skipped. -/
theorem c5_counterexample :
    startSyncDispatch "full" [("g1", "1")] none = SyncDispatch.syncRun "full" false ∧
    convertGoogleTimestamp c5Entry.google_last_changed
      = convertGoogleTimestamp c5Contact.updateTime ∧
    (convertGoogleTimestamp c5Contact.updateTime).isSome = true ∧
    syncContactAction [c5Entry] false c5Contact = ContactAction.mergeBranch ∧
    syncContactEffects [c5Entry] false c5Contact ≠ [] := by
  refine ⟨by decide, rfl, by decide, by decide, by decide⟩

/-- C5 (amended): only the date-based full sync (the degraded delta request
when no sync token is stored) skips a visited mapped record whose parsed
remote timestamp equals the stored one — skipped entirely, with no effects.
An explicitly requested full sync dispatches with `is_date_based_sync=False`
and never skips a visited record on timestamp equality. -/
theorem c5_skip_only_date_based (t : List DatabaseEntry) (g : GoogleContact)
    (entry : DatabaseEntry) (mp : List (String × String)) (tok : Option String)
    (hdel : g.deleted = false) (hfind : findByGoogleId t g.resourceName = some entry)
    (hmp : mp.isEmpty = false) :
    (convertGoogleTimestamp entry.google_last_changed = convertGoogleTimestamp g.updateTime →
      syncContactAction t true g = ContactAction.skip ∧
      syncContactEffects t true g = []) ∧
    syncContactAction t false g ≠ ContactAction.skip ∧
    startSyncDispatch "delta" mp none = SyncDispatch.syncRun "full" true ∧
    startSyncDispatch "full" mp tok = SyncDispatch.syncRun "full" false := by
  refine ⟨?_, ?_, ?_, ?_⟩
  · intro heq
    have hact : syncContactAction t true g = ContactAction.skip := by
      simp [syncContactAction, hdel, hfind, heq]
    exact ⟨hact, by simp [syncContactEffects, hact]⟩
  · have hact : syncContactAction t false g = ContactAction.mergeBranch := by
      simp [syncContactAction, hdel, hfind]
    rw [hact]
    intro hcontra
    cases hcontra
  · simp [startSyncDispatch, hmp]
  · simp [startSyncDispatch, hmp]

/-- Witness for the C5 amended theorem at concrete inputs. -/
theorem c5_skip_only_date_based_witness :
    syncContactAction [c5Entry] true c5Contact = ContactAction.skip ∧
    syncContactEffects [c5Entry] true c5Contact = [] ∧
    syncContactAction [c5Entry] false c5Contact ≠ ContactAction.skip := by
  have h := c5_skip_only_date_based [c5Entry] c5Contact c5Entry [("g1", "1")] none
    (by decide) (by decide) (by decide)
  exact ⟨(h.1 rfl).1, (h.1 rfl).2, h.2.1⟩

theorem checkGoogleFold_read (maps : SyncMaps) (monicaContacts : List MonicaContact)
    (l : List GoogleContact) (acc : List GoogleContact × Nat × List CheckEffect)
    (h : acc.2.2.all checkEffectIsRead = true) :
    ((l.foldl (checkGoogleStep maps monicaContacts) acc).2.2).all checkEffectIsRead = true := by
  induction l generalizing acc with
  | nil => exact h
  | cons gc rest ih =>
    apply ih
    unfold checkGoogleStep
    rcases hlk : lookupStr maps.mapping gc.resourceName with _ | mid
    · simpa using h
    · by_cases hm : monicaHasId monicaContacts mid <;>
        simp [hm, List.all_append, h, checkEffectIsRead]

theorem checkMonicaFold_read (maps : SyncMaps) (googleContacts : List GoogleContact)
    (l : List MonicaContact) (acc : List MonicaContact × Nat × List CheckEffect)
    (h : acc.2.2.all checkEffectIsRead = true) :
    ((l.foldl (checkMonicaStep maps googleContacts) acc).2.2).all checkEffectIsRead = true := by
  induction l generalizing acc with
  | nil => exact h
  | cons mc rest ih =>
    apply ih
    unfold checkMonicaStep
    rcases hlk : lookupStr maps.reverse_mapping (toString mc.id) with _ | gid
    · simpa using h
    · by_cases hg : googleHasId googleContacts gid <;>
        simp [hg, List.all_append, h, checkEffectIsRead]

/-- C9: the consistency check reports a stored pairing as orphaned exactly
when both its Google id and its Monica id are absent from the freshly
fetched remote contact lists, and the whole trace of calls it makes consists
of reads only — no store mutation and no remote write. -/
theorem c9_check_read_only_orphans (maps : SyncMaps) (googleContacts : List GoogleContact)
    (monicaContacts : List MonicaContact) :
    (∀ p : String × String,
        p ∈ (checkDatabaseRun maps googleContacts monicaContacts).1.orphaned ↔
          p ∈ maps.mapping ∧
          (googleContacts.map (fun c => c.resourceName)).contains p.1 = false ∧
          (monicaContacts.map (fun c => toString c.id)).contains p.2 = false) ∧
    ((checkDatabaseRun maps googleContacts monicaContacts).2.all checkEffectIsRead = true) := by
  constructor
  · intro p
    unfold checkDatabaseRun
    simp only [List.mem_filter, Bool.and_eq_true, Bool.not_eq_true']
  · unfold checkDatabaseRun
    rw [List.all_eq_true]
    intro e he
    rcases List.mem_append.mp he with h | h
    · rcases List.mem_append.mp h with h2 | h2
      · rcases List.mem_append.mp h2 with h3 | h3
        · rcases h3 with _ | ⟨_, h4⟩
          · rfl
          · rcases h4 with _ | ⟨_, h5⟩
            · rfl
            · cases h5
        · exact List.all_eq_true.mp
            (checkGoogleFold_read maps monicaContacts googleContacts ([], 0, []) rfl) e h3
      · exact List.all_eq_true.mp
          (checkMonicaFold_read maps googleContacts monicaContacts ([], 0, []) rfl) e h2
    · obtain ⟨q, _, hq⟩ := List.mem_map.mp h
      rw [← hq]
      rfl

/-- C3: the non-interactive matching pass binds a Google contact iff the
candidate scan over unmapped Monica contacts yields exactly one match (the
binding being to that unique candidate, written to the store and to both
in-memory maps); with zero or several candidates no pairing is made and the
record is deferred to the interactive conflict pass. -/
theorem c3_unique_match_or_defer (monicaContacts : List MonicaContact)
    (st : BuildState) (g : GoogleContact) :
    (∀ m : MonicaContact,
        simpleMonicaIdSearch st.maps.mapping monicaContacts g = some m ↔
        simpleSearchCandidates st.maps.mapping monicaContacts g = [m]) ∧
    (simpleMonicaIdSearch st.maps.mapping monicaContacts g = none →
      buildStep monicaContacts st g = { st with conflicts := st.conflicts ++ [g] }) ∧
    (∀ m : MonicaContact,
        simpleMonicaIdSearch st.maps.mapping monicaContacts g = some m →
        buildStep monicaContacts st g = { st with
          table := (insertData st.table
            { google_id := g.resourceName, monica_id := toString m.id,
              google_full_name := (getContactNames g).displayName,
              monica_full_name := m.complete_name }).1,
          maps := updateMapping st.maps g.resourceName (toString m.id) }) := by
  refine ⟨?_, ?_, ?_⟩
  · intro m
    unfold simpleMonicaIdSearch
    constructor
    · intro h
      by_cases hlen : (simpleSearchCandidates st.maps.mapping monicaContacts g).length = 1
      · rw [if_pos hlen] at h
        obtain ⟨a, ha⟩ := List.length_eq_one.mp hlen
        rw [ha] at h ⊢
        simp only [List.getElem?_cons_zero, Option.some.injEq] at h
        rw [h]
      · rw [if_neg hlen] at h
        cases h
    · intro h
      rw [h]
      simp
  · intro h
    unfold buildStep
    rw [h]
  · intro m h
    unfold buildStep
    rw [h]

/-- Witness for the C3 theorem: a unique display-name match is bound, an
empty candidate pool is deferred. -/
theorem c3_unique_match_or_defer_witness :
    buildStep [c3Monica] c3State c3Google = { c3State with
      table := (insertData c3State.table
        { google_id := c3Google.resourceName, monica_id := toString c3Monica.id,
          google_full_name := (getContactNames c3Google).displayName,
          monica_full_name := c3Monica.complete_name }).1,
      maps := updateMapping c3State.maps c3Google.resourceName (toString c3Monica.id) } ∧
    buildStep [] c3State c3Google =
      { c3State with conflicts := c3State.conflicts ++ [c3Google] } :=
  ⟨(c3_unique_match_or_defer [c3Monica] c3State c3Google).2.2 c3Monica (by decide),
   (c3_unique_match_or_defer [] c3State c3Google).2.1 (by decide)⟩

/-- C2: for a matched pair, the merge step issues no update call iff the
canonical upload form assembled on the Google side equals the form rebuilt
from the Monica contact's current data; when the two forms differ it issues
exactly one contact-update call carrying the Google-derived form. -/
theorem c2_merge_idempotent_single_update (genderMapping : List (String × Nat))
    (create_reminders : Bool) (m : MonicaContact) (g : GoogleContact) :
    (mergeAndUpdateNbd genderMapping create_reminders m g = none ↔
      googleSideForm genderMapping create_reminders m g
        = getMonicaForm genderMapping create_reminders m) ∧
    (googleSideForm genderMapping create_reminders m g
        ≠ getMonicaForm genderMapping create_reminders m →
      mergeAndUpdateNbd genderMapping create_reminders m g
        = some (m.id, googleSideForm genderMapping create_reminders m g)) := by
  unfold mergeAndUpdateNbd
  by_cases h : googleSideForm genderMapping create_reminders m g
      = getMonicaForm genderMapping create_reminders m <;> simp [h]

/-- Witness for the C2 theorem: differing forms produce exactly the one
update call with the Google-derived form. -/
theorem c2_merge_idempotent_single_update_witness :
    mergeAndUpdateNbd [] true c2Monica c2Google
      = some (c2Monica.id, googleSideForm [] true c2Monica c2Google) :=
  (c2_merge_idempotent_single_update [] true c2Monica c2Google).2 (by decide)

end GMSync
